import Mathlib

/-!
Shallow embedding of `src/app.py` (shopify-airtable webhook service).

The service receives one webhook payload describing a catalog row (keyed by
SKU) and pushes its fields to a remote commerce platform.  We model the
remote platform as an abstract read-only state (`Shopify`), the two
process-wide caches (`Cache`), the inbound payload (`Request`), and the
endpoint `airtable_webhook` as a pure function producing the HTTP outcome,
the updated caches, and the ordered list of remote calls issued (`Call`).
Numbers are modelled as rationals; Python truthiness on strings, options and
lists is modelled explicitly.
-/

namespace ShopifyAirtable

/-- One row of the market directory: `{"id": ..., "currency": ...}`
(the value stored in `price_lists` by `get_market_price_lists`). -/
structure MarketEntry where
  plid : String
  currency : String
deriving DecidableEq

/-- One node of the `catalogs(first: 20, type: MARKET)` GraphQL reply. -/
structure CatalogNode where
  title : String
  status : String
  priceList : Option MarketEntry
deriving DecidableEq

/-- The variant data returned by the `productVariants` GraphQL query:
the variant gid and its product gid. -/
structure VariantInfo where
  variantGid : String
  productGid : String
deriving DecidableEq

/-- Abstract state of the remote platform, as far as the service reads it.
`variantPrice` and `priceListFixedPrice` model the current default price of a
variant and the current fixed price a price list holds for a variant; the
code of `airtable_webhook` never reads either (the theorems make this
explicit), but they are part of the remote state the spec talks about.
`locations` is `Except` so that a transport failure of the locations read can
be modelled (`.error ()` = non-success HTTP status). -/
structure Shopify where
  variantBySku : String → Option VariantInfo
  inventoryItemId : String → String
  variantPrice : String → ℚ
  catalogs : List CatalogNode
  locations : Except Unit (List String)
  priceListFixedPrice : String → String → Option ℚ

/-- Environment configuration read at startup: `WEBHOOK_SECRET` and the
optional `SHOPIFY_LOCATION_ID` override. -/
structure Env where
  webhookSecret : String
  preferredLocationId : Option String

/-- The two module-level caches `CACHED_PRICE_LISTS` and
`CACHED_PRIMARY_LOCATION_ID` (both start as `None`). -/
structure Cache where
  priceLists : Option (List (String × MarketEntry))
  primaryLocationId : Option String
deriving DecidableEq

/-- A raw numeric payload field as received in the JSON body: absent key,
blank string, a value that parses as a number, or a value that does not. -/
inductive RawNum
  | absent
  | blank
  | numeric (q : ℚ)
  | invalid
deriving DecidableEq

/-- `_to_number`: `None` and `""` map to `None`, otherwise `float(x)` is
attempted; on failure `None`. -/
def toNumber : RawNum → Option ℚ
  | RawNum.absent => none
  | RawNum.blank => none
  | RawNum.numeric q => some q
  | RawNum.invalid => none

/-- The inbound webhook payload, field for field
(`SKU`, `Title`, `Barcode`, `Size`, the six price fields,
`Qty given in shopify`) plus the `X-Secret-Token` header. -/
structure Request where
  secretHeader : Option String
  sku : Option String
  title : Option String
  barcode : Option String
  size : Option String
  uaePrice : RawNum
  asiaPrice : RawNum
  americaPrice : RawNum
  uaeCompare : RawNum
  asiaCompare : RawNum
  americaCompare : RawNum
  qty : RawNum
deriving DecidableEq

/-- The Python exception classes the embedded code can raise:
`requests.HTTPError` from `raise_for_status`, `IndexError` from `[0]` on an
empty list. -/
inductive PyErr
  | httpError
  | indexError
deriving DecidableEq

/-- Decidable equality for `Except`, so that results of fallible operations
can be evaluated on concrete inputs. -/
instance {ε α : Type} [DecidableEq ε] [DecidableEq α] : DecidableEq (Except ε α)
  | Except.error a, Except.error b =>
    if h : a = b then Decidable.isTrue (congrArg Except.error h)
    else Decidable.isFalse (fun hc => h (Except.error.inj hc))
  | Except.error _, Except.ok _ => Decidable.isFalse Except.noConfusion
  | Except.ok _, Except.error _ => Decidable.isFalse Except.noConfusion
  | Except.ok a, Except.ok b =>
    if h : a = b then Decidable.isTrue (congrArg Except.ok h)
    else Decidable.isFalse (fun hc => h (Except.ok.inj hc))

/-- One remote call issued to the platform, in issue order. -/
inductive Call
  | variantQuery (sku : String)
  | variantGet (variantId : String)
  | variantDetailsWrite (variantId : String) (title barcode : Option String)
  | productTitleWrite (productId : String) (title : String)
  | metafieldSet (ownerGid ns key mtype value : String)
  | defaultPriceWrite (variantId : String) (price : ℚ) (comparePrice : Option ℚ)
  | locationsGet
  | inventorySet (itemId locationId : String) (available : ℤ)
  | catalogsQuery
  | priceListWrite (priceListId variantGid : String) (price : ℚ)
      (currency : String) (comparePrice : Option ℚ)
deriving DecidableEq

/-- The HTTP outcome of one webhook delivery. `exception` is an uncaught
Python exception, which the web framework turns into a 500. -/
inductive Outcome
  | unauthorized
  | skuMissing
  | variantNotFound
  | success
  | exception (e : PyErr)
deriving DecidableEq

/-- HTTP status of an outcome. -/
def Outcome.status : Outcome → Nat
  | Outcome.unauthorized => 401
  | Outcome.skuMissing => 400
  | Outcome.variantNotFound => 404
  | Outcome.success => 200
  | Outcome.exception _ => 500

/-- Python truthiness of an optional string (`None` and `""` are falsy). -/
def truthyStr : Option String → Bool
  | none => false
  | some s => s ≠ ""

/-- Python truthiness of an optional list (`None` and `[]`/`{}` are falsy). -/
def truthyList {α : Type} : Option (List α) → Bool
  | none => false
  | some [] => false
  | some (_ :: _) => true

/-- Auxiliary for `lastSeg`: the characters after the last `/`. -/
def lastSegAux : List Char → List Char → List Char
  | [], cur => cur.reverse
  | c :: cs, cur => if c = '/' then lastSegAux cs [] else lastSegAux cs (c :: cur)

/-- `s.split("/")[-1]`. -/
def lastSeg (s : String) : String := String.mk (lastSegAux s.data [])

/-- Python `str.strip()`: drop leading and trailing whitespace. -/
def pyStrip (s : String) : String :=
  String.mk (((s.data.dropWhile Char.isWhitespace).reverse.dropWhile
    Char.isWhitespace).reverse)

/-- Dictionary read `d.get(k)` for a duplicate-free association list. -/
def dictGet {α : Type} (d : List (String × α)) (k : String) : Option α :=
  (d.find? (fun p => p.1 == k)).map (fun p => p.2)

/-- Dictionary write `d[k] = v`: overwrite in place if the key exists,
else append. -/
def dictInsert {α : Type} (d : List (String × α)) (k : String) (v : α) :
    List (String × α) :=
  if (d.find? (fun p => p.1 == k)).isSome then
    d.map (fun p => if p.1 == k then (k, v) else p)
  else
    d ++ [(k, v)]

/-- `MARKET_NAMES`: the fixed market-name → catalog-title table. -/
def MARKET_NAMES : List (String × String) :=
  [("UAE", "United Arab Emirates"),
   ("Asia", "Asia Market with 55 rate"),
   ("America", "America catlog")]

/-- The dictionary `get_market_price_lists` builds from the catalogs reply:
keep nodes with `status == "ACTIVE"` and a truthy `priceList`, keyed by
title. -/
def fetchPriceLists (st : Shopify) : List (String × MarketEntry) :=
  st.catalogs.foldl
    (fun d c =>
      match c.priceList with
      | some pl => if c.status = "ACTIVE" then dictInsert d c.title pl else d
      | none => d)
    []

/-- `get_market_price_lists`: return the cached dictionary if it is truthy
(non-empty); otherwise issue the catalogs query, build the dictionary and
cache it.  Returns (result, new cache, calls issued). -/
def get_market_price_lists (st : Shopify)
    (cached : Option (List (String × MarketEntry))) :
    List (String × MarketEntry) × Option (List (String × MarketEntry)) ×
      List Call :=
  if truthyList cached then
    (cached.getD [], cached, [])
  else
    let pls := fetchPriceLists st
    (pls, some pls, [Call.catalogsQuery])

/-- `get_primary_location_id`: the `SHOPIFY_LOCATION_ID` override wins if
truthy; else a truthy cached value; else one read of `locations.json`,
taking `locations[0]["id"]` (IndexError on an empty list, HTTPError on a
failed read) and caching it.  Returns (result with new cache, calls). -/
def get_primary_location_id (env : Env) (st : Shopify)
    (cachedLoc : Option String) :
    Except PyErr (String × Option String) × List Call :=
  if truthyStr env.preferredLocationId then
    (Except.ok (env.preferredLocationId.getD "", cachedLoc), [])
  else if truthyStr cachedLoc then
    (Except.ok (cachedLoc.getD "", cachedLoc), [])
  else
    match st.locations with
    | Except.error _ => (Except.error PyErr.httpError, [Call.locationsGet])
    | Except.ok [] => (Except.error PyErr.indexError, [Call.locationsGet])
    | Except.ok (l :: _) => (Except.ok (l, some l), [Call.locationsGet])

/-- `int(qty)`: Python float-to-int conversion truncates toward zero
(the exact quotient of numerator by denominator, rounded toward zero). -/
def truncQ (q : ℚ) : ℤ := q.num.tdiv q.den

/-- `set_inventory_absolute`: one POST of `inventory_levels/set.json` with
the absolute `available` value. -/
def set_inventory_absolute (itemId locId : String) (qty : ℚ) : List Call :=
  [Call.inventorySet itemId locId (truncQ qty)]

/-- `update_variant_details`: skipped entirely when neither `title` nor
`barcode` is truthy; otherwise one variant PUT whose payload carries `title`
and/or `barcode` only when truthy and non-blank after `strip()`. -/
def update_variant_details (variantGid : String)
    (title barcode : Option String) : List Call :=
  if truthyStr title || truthyStr barcode then
    [Call.variantDetailsWrite (lastSeg variantGid)
      (match title with
       | some s => if s ≠ "" ∧ pyStrip s ≠ "" then some s else none
       | none => none)
      (match barcode with
       | some s => if s ≠ "" ∧ pyStrip s ≠ "" then some s else none
       | none => none)]
  else []

/-- `update_product_title`: no-op when `title` is falsy, else one product
PUT. -/
def update_product_title (productGid : String) (title : Option String) :
    List Call :=
  if truthyStr title then
    [Call.productTitleWrite (lastSeg productGid) (title.getD "")]
  else []

/-- `update_variant_default_price`: one variant PUT with the new price and
the comparison price when present.  Issued unconditionally by its caller. -/
def update_variant_default_price (variantId : String) (price : ℚ)
    (comparePrice : Option ℚ) : List Call :=
  [Call.defaultPriceWrite variantId price comparePrice]

/-- `get_variant_default_price`: one variant GET returning the current
default price.  Defined in the source but never called by the webhook. -/
def get_variant_default_price (st : Shopify) (variantId : String) :
    ℚ × List Call :=
  (st.variantPrice variantId, [Call.variantGet variantId])

/-- `update_price_list`: one `priceListFixedPricesAdd` mutation with the new
fixed price and the comparison price when present.  Issued unconditionally
by its caller; no read of the current fixed price. -/
def update_price_list (priceListId variantGid : String) (price : ℚ)
    (currency : String) (comparePrice : Option ℚ) : List Call :=
  [Call.priceListWrite priceListId variantGid price currency comparePrice]

/-- The `prices` dictionary built by the endpoint, in insertion order. -/
def pricesOf (req : Request) : List (String × Option ℚ) :=
  [("UAE", toNumber req.uaePrice),
   ("Asia", toNumber req.asiaPrice),
   ("America", toNumber req.americaPrice)]

/-- The `compare` dictionary built by the endpoint. -/
def compareOf (req : Request) : List (String × Option ℚ) :=
  [("UAE", toNumber req.uaeCompare),
   ("Asia", toNumber req.asiaCompare),
   ("America", toNumber req.americaCompare)]

/-- The body of the endpoint's market loop for one `(market, price)` pair:
skip when the price is `None`; else look the market's mapped title up in the
price-list dictionary and, when found, issue `update_price_list`. -/
def marketStep (pls : List (String × MarketEntry)) (variantGid : String)
    (compare : List (String × Option ℚ)) (acc : List Call)
    (mp : String × Option ℚ) : List Call :=
  match mp.2 with
  | none => acc
  | some p =>
    match (dictGet MARKET_NAMES mp.1).bind (dictGet pls) with
    | some pl =>
        acc ++ update_price_list pl.plid variantGid p pl.currency
          ((dictGet compare mp.1).join)
    | none => acc

/-- The endpoint's `for m, p in prices.items()` loop. -/
def marketLoop (pls : List (String × MarketEntry)) (variantGid : String)
    (prices compare : List (String × Option ℚ)) : List Call :=
  prices.foldl (marketStep pls variantGid compare) []

/-- The inventory block of the endpoint: nothing when `qty` is `None`; else
resolve the primary location (which may raise) and issue the absolute
inventory set.  Returns (result, new location cache, calls). -/
def inventoryStep (env : Env) (st : Shopify) (cachedLoc : Option String)
    (itemId : String) (qty : Option ℚ) :
    Except PyErr Unit × Option String × List Call :=
  match qty with
  | none => (Except.ok (), cachedLoc, [])
  | some q =>
    match get_primary_location_id env st cachedLoc with
    | (Except.ok (loc, newLoc), cs) =>
        (Except.ok (), newLoc, cs ++ set_inventory_absolute itemId loc q)
    | (Except.error e, cs) => (Except.error e, cachedLoc, cs)

/-- The calls the endpoint issues between variant resolution and the
inventory block: descriptive-field writes, size metafield, and the
unconditional default-price write taken from the `UAE` entry of `prices`. -/
def baseCalls (req : Request) (v : VariantInfo) : List Call :=
  update_variant_details v.variantGid req.title req.barcode
    ++ update_product_title v.productGid req.title
    ++ (if truthyStr req.size then
          [Call.metafieldSet v.variantGid "custom" "size"
            "single_line_text_field" (req.size.getD "")]
        else [])
    ++ (match toNumber req.uaePrice with
        | some p =>
            update_variant_default_price (lastSeg v.variantGid) p
              (toNumber req.uaeCompare)
        | none => [])

/-- The endpoint after the variant has been resolved: the base writes, then
the inventory block (which may raise and abort), then the market-price
loop. -/
def webhookResolved (env : Env) (st : Shopify) (c : Cache) (req : Request)
    (v : VariantInfo) : Outcome × Cache × List Call :=
  match inventoryStep env st c.primaryLocationId
      (st.inventoryItemId (lastSeg v.variantGid)) (toNumber req.qty) with
  | (Except.error e, locC, cs) =>
      (Outcome.exception e, ⟨c.priceLists, locC⟩, baseCalls req v ++ cs)
  | (Except.ok _, locC, cs) =>
      (Outcome.success,
       ⟨(get_market_price_lists st c.priceLists).2.1, locC⟩,
       baseCalls req v ++ cs ++ (get_market_price_lists st c.priceLists).2.2 ++
         marketLoop (get_market_price_lists st c.priceLists).1 v.variantGid
           (pricesOf req) (compareOf req))

/-- `airtable_webhook`: shared-secret check (401), SKU presence check (400,
before any remote call), variant resolution by SKU (GraphQL query plus one
variant GET for the inventory item id; 404 when no variant matches), then
the resolved pipeline. -/
def airtable_webhook (env : Env) (st : Shopify) (c : Cache) (req : Request) :
    Outcome × Cache × List Call :=
  if pyStrip (req.secretHeader.getD "") ≠ env.webhookSecret then
    (Outcome.unauthorized, c, [])
  else
    match req.sku with
    | none => (Outcome.skuMissing, c, [])
    | some sku =>
      if sku = "" then (Outcome.skuMissing, c, [])
      else
        match st.variantBySku sku with
        | none => (Outcome.variantNotFound, c, [Call.variantQuery sku])
        | some v =>
          ((webhookResolved env st c req v).1,
           (webhookResolved env st c req v).2.1,
           Call.variantQuery sku :: Call.variantGet (lastSeg v.variantGid) ::
             (webhookResolved env st c req v).2.2)

/-- Classifier: is this call the default-price variant PUT? -/
def Call.isDefaultPriceWrite : Call → Bool
  | Call.defaultPriceWrite _ _ _ => true
  | _ => false

/-- Classifier: is this call a price-list fixed-price mutation? -/
def Call.isPriceListWrite : Call → Bool
  | Call.priceListWrite _ _ _ _ _ => true
  | _ => false

/-- Classifier: is this call an absolute inventory set? -/
def Call.isInventorySet : Call → Bool
  | Call.inventorySet _ _ _ => true
  | _ => false

/-- Classifier: is this call part of the inventory flow (location read or
inventory set)? -/
def Call.isInventoryCall : Call → Bool
  | Call.inventorySet _ _ _ => true
  | Call.locationsGet => true
  | _ => false

/-- Classifier: is this call a write (mutation) as opposed to a read? -/
def Call.isWrite : Call → Bool
  | Call.variantDetailsWrite _ _ _ => true
  | Call.productTitleWrite _ _ => true
  | Call.metafieldSet _ _ _ _ _ => true
  | Call.defaultPriceWrite _ _ _ => true
  | Call.inventorySet _ _ _ => true
  | Call.priceListWrite _ _ _ _ _ => true
  | _ => false

/-! ### Structural lemmas: market loop -/

theorem marketStep_acc (pls : List (String × MarketEntry)) (gid : String)
    (cs : List (String × Option ℚ)) (acc : List Call)
    (mp : String × Option ℚ) :
    marketStep pls gid cs acc mp = acc ++ marketStep pls gid cs [] mp := by
  obtain ⟨m, po⟩ := mp
  cases po with
  | none => simp [marketStep]
  | some p =>
    unfold marketStep
    cases h : (dictGet MARKET_NAMES m).bind (dictGet pls) <;> simp [h]

theorem foldl_marketStep_acc (pls : List (String × MarketEntry)) (gid : String)
    (cs : List (String × Option ℚ)) :
    ∀ (prices : List (String × Option ℚ)) (acc : List Call),
      prices.foldl (marketStep pls gid cs) acc =
        acc ++ prices.foldl (marketStep pls gid cs) []
  | [], acc => by simp
  | mp :: rest, acc => by
    rw [List.foldl_cons, List.foldl_cons,
      foldl_marketStep_acc pls gid cs rest (marketStep pls gid cs acc mp),
      foldl_marketStep_acc pls gid cs rest (marketStep pls gid cs [] mp),
      marketStep_acc]
    simp

theorem marketLoop_cons (pls : List (String × MarketEntry)) (gid : String)
    (cs : List (String × Option ℚ)) (mp : String × Option ℚ)
    (rest : List (String × Option ℚ)) :
    marketLoop pls gid (mp :: rest) cs =
      marketStep pls gid cs [] mp ++ marketLoop pls gid rest cs := by
  unfold marketLoop
  rw [List.foldl_cons, foldl_marketStep_acc]

theorem marketStep_mem (pls : List (String × MarketEntry)) (gid : String)
    (cs : List (String × Option ℚ)) (mp : String × Option ℚ) {x : Call}
    (hx : x ∈ marketStep pls gid cs [] mp) :
    x.isPriceListWrite = true := by
  obtain ⟨m, po⟩ := mp
  cases po with
  | none => simp [marketStep] at hx
  | some p =>
    unfold marketStep at hx
    cases h : (dictGet MARKET_NAMES m).bind (dictGet pls) with
    | none => rw [h] at hx; simp at hx
    | some pl =>
      rw [h] at hx
      simp [update_price_list] at hx
      rw [hx]
      rfl

theorem marketLoop_mem (pls : List (String × MarketEntry)) (gid : String)
    (cs : List (String × Option ℚ)) :
    ∀ (prices : List (String × Option ℚ)) {x : Call},
      x ∈ marketLoop pls gid prices cs → x.isPriceListWrite = true
  | [], x, hx => by simp [marketLoop] at hx
  | mp :: rest, x, hx => by
    rw [marketLoop_cons] at hx
    rcases List.mem_append.mp hx with h | h
    · exact marketStep_mem pls gid cs mp h
    · exact marketLoop_mem pls gid cs rest h

/-! ### Filter helpers -/

theorem filter_nil_of_mem {p : Call → Bool} {l : List Call}
    (h : ∀ x ∈ l, p x = false) : l.filter p = [] := by
  induction l with
  | nil => rfl
  | cons a l ih =>
    rw [List.filter_cons]
    simp only [h a (List.mem_cons_self a l), Bool.false_eq_true, if_false]
    exact ih (fun x hx => h x (List.mem_cons_of_mem a hx))

theorem filter_self_of_mem {p : Call → Bool} {l : List Call}
    (h : ∀ x ∈ l, p x = true) : l.filter p = l := by
  induction l with
  | nil => rfl
  | cons a l ih =>
    rw [List.filter_cons]
    simp only [h a (List.mem_cons_self a l), if_true]
    rw [ih (fun x hx => h x (List.mem_cons_of_mem a hx))]

/-! ### Location resolver lemmas -/

theorem gp_calls (env : Env) (st : Shopify) (cl : Option String) :
    (get_primary_location_id env st cl).2 = [] ∨
    (get_primary_location_id env st cl).2 = [Call.locationsGet] := by
  unfold get_primary_location_id
  split
  · left; rfl
  · split
    · left; rfl
    · split <;> right <;> rfl

theorem gp_idem (env : Env) (st st2 : Shopify) (cl : Option String)
    {loc : String} {newLoc : Option String} {cs : List Call}
    (hl : st2.locations = st.locations)
    (h : get_primary_location_id env st cl = (Except.ok (loc, newLoc), cs)) :
    (get_primary_location_id env st2 newLoc).1 = Except.ok (loc, newLoc) := by
  by_cases h1 : truthyStr env.preferredLocationId
  · have e1 : get_primary_location_id env st cl =
        (Except.ok (env.preferredLocationId.getD "", cl), []) := by
      unfold get_primary_location_id
      rw [if_pos h1]
    rw [e1] at h
    injection h with h2 h3
    injection h2 with h4
    injection h4 with h5 h6
    rw [← h5, ← h6]
    unfold get_primary_location_id
    rw [if_pos h1]
  · by_cases h2 : truthyStr cl
    · have e2 : get_primary_location_id env st cl =
          (Except.ok (cl.getD "", cl), []) := by
        unfold get_primary_location_id
        rw [if_neg h1, if_pos h2]
      rw [e2] at h
      injection h with h3 h4
      injection h3 with h5
      injection h5 with h6 h7
      rw [← h6, ← h7]
      unfold get_primary_location_id
      rw [if_neg h1, if_pos h2]
    · cases hlc : st.locations with
      | error u =>
        have e3 : get_primary_location_id env st cl =
            (Except.error PyErr.httpError, [Call.locationsGet]) := by
          unfold get_primary_location_id
          rw [if_neg h1, if_neg h2, hlc]
        rw [e3] at h
        injection h with h3 h4
        injection h3
      | ok ls =>
        cases ls with
        | nil =>
          have e4 : get_primary_location_id env st cl =
              (Except.error PyErr.indexError, [Call.locationsGet]) := by
            unfold get_primary_location_id
            rw [if_neg h1, if_neg h2, hlc]
          rw [e4] at h
          injection h with h3 h4
          injection h3
        | cons l rest =>
          have e5 : get_primary_location_id env st cl =
              (Except.ok (l, some l), [Call.locationsGet]) := by
            unfold get_primary_location_id
            rw [if_neg h1, if_neg h2, hlc]
          rw [e5] at h
          injection h with h3 h4
          injection h3 with h5
          injection h5 with h6 h7
          rw [← h6, ← h7]
          unfold get_primary_location_id
          rw [if_neg h1]
          by_cases h8 : truthyStr (some l)
          · rw [if_pos h8]
            rfl
          · rw [if_neg h8, hl, hlc]

/-! ### Market directory cache lemmas -/

theorem gmpl_cached (st : Shopify) (pls : List (String × MarketEntry))
    (hne : pls ≠ []) :
    get_market_price_lists st (some pls) = (pls, some pls, []) := by
  cases pls with
  | nil => exact absurd rfl hne
  | cons a l => rfl

theorem gmpl_cold (st : Shopify) (c : Option (List (String × MarketEntry)))
    (hc : truthyList c = false) :
    get_market_price_lists st c =
      (fetchPriceLists st, some (fetchPriceLists st), [Call.catalogsQuery]) := by
  unfold get_market_price_lists
  rw [hc]
  rfl

theorem gmpl_cache_out (st : Shopify)
    (c : Option (List (String × MarketEntry))) :
    (get_market_price_lists st c).2.1 = some (get_market_price_lists st c).1 := by
  cases c with
  | none => rfl
  | some pls =>
    cases pls with
    | nil => rfl
    | cons a l => rfl

theorem fetchPriceLists_congr (st st2 : Shopify)
    (h : st2.catalogs = st.catalogs) :
    fetchPriceLists st2 = fetchPriceLists st := by
  unfold fetchPriceLists
  rw [h]

theorem gmpl_idem (st st2 : Shopify)
    (c : Option (List (String × MarketEntry)))
    (h : st2.catalogs = st.catalogs) :
    (get_market_price_lists st2 ((get_market_price_lists st c).2.1)).1 =
      (get_market_price_lists st c).1 := by
  rw [gmpl_cache_out]
  cases hr : (get_market_price_lists st c).1 with
  | nil =>
    rw [gmpl_cold st2 (some []) rfl]
    cases c with
    | none =>
      rw [gmpl_cold st none rfl] at hr
      rw [fetchPriceLists_congr st st2 h, hr]
    | some pls =>
      cases pls with
      | nil =>
        rw [gmpl_cold st (some []) rfl] at hr
        rw [fetchPriceLists_congr st st2 h, hr]
      | cons a l =>
        rw [gmpl_cached st (a :: l) (by simp)] at hr
        exact absurd hr (by simp)
  | cons a l => rw [gmpl_cached st2 (a :: l) (by simp)]

theorem gmpl_calls (st : Shopify) (c : Option (List (String × MarketEntry))) :
    (get_market_price_lists st c).2.2 = [] ∨
    (get_market_price_lists st c).2.2 = [Call.catalogsQuery] := by
  cases c with
  | none => right; rfl
  | some pls =>
    cases pls with
    | nil => right; rfl
    | cons a l => left; rfl

/-! ### Inventory step lemmas -/

theorem inventoryStep_none (env : Env) (st : Shopify) (cl : Option String)
    (item : String) :
    inventoryStep env st cl item none = (Except.ok (), cl, []) := rfl

theorem inventoryStep_some (env : Env) (st : Shopify) (cl : Option String)
    (item : String) (q : ℚ) :
    inventoryStep env st cl item (some q) =
      match get_primary_location_id env st cl with
      | (Except.ok (loc, newLoc), cs2) =>
          (Except.ok (), newLoc, cs2 ++ set_inventory_absolute item loc q)
      | (Except.error e, cs2) => (Except.error e, cl, cs2) := rfl

theorem gp_calls_write_free (env : Env) (st : Shopify) (cl : Option String) :
    ((get_primary_location_id env st cl).2).filter Call.isWrite = [] := by
  rcases gp_calls env st cl with h | h <;> rw [h] <;> rfl

theorem inventoryStep_calls_mem (env : Env) (st : Shopify) (cl : Option String)
    (item : String) (q : Option ℚ) :
    ∀ x ∈ (inventoryStep env st cl item q).2.2, x.isInventoryCall = true := by
  cases q with
  | none => intro x hx; exact absurd hx (by simp [inventoryStep_none])
  | some q =>
    intro x hx
    rw [inventoryStep_some] at hx
    rcases hg : get_primary_location_id env st cl with ⟨r, gcs⟩
    rw [hg] at hx
    have hshape := gp_calls env st cl
    rw [hg] at hshape
    dsimp only at hshape
    cases r with
    | error e =>
      dsimp only at hx
      rcases hshape with h | h <;> rw [h] at hx
      · exact absurd hx (by simp)
      · have hx2 : x = Call.locationsGet := by simpa using hx
        rw [hx2]; rfl
    | ok p =>
      obtain ⟨gloc, newLoc⟩ := p
      dsimp only at hx
      rcases List.mem_append.mp hx with h | h
      · rcases hshape with h2 | h2 <;> rw [h2] at h
        · exact absurd h (by simp)
        · have hx2 : x = Call.locationsGet := by simpa using h
          rw [hx2]; rfl
      · have hx2 : x = Call.inventorySet item gloc (truncQ q) := by
          simpa [set_inventory_absolute] using h
        rw [hx2]; rfl

theorem inventoryStep_idem (env : Env) (st st2 : Shopify) (cl : Option String)
    (item : String) (q : Option ℚ) {loc2 : Option String} {cs : List Call}
    (hl : st2.locations = st.locations)
    (h : inventoryStep env st cl item q = (Except.ok (), loc2, cs)) :
    ∃ cs2, inventoryStep env st2 loc2 item q = (Except.ok (), loc2, cs2) ∧
      cs2.filter Call.isWrite = cs.filter Call.isWrite := by
  cases q with
  | none =>
    rw [inventoryStep_none] at h
    injection h with h1 h2
    injection h2 with h3 h4
    rw [← h3, ← h4]
    exact ⟨[], inventoryStep_none env st2 cl item, rfl⟩
  | some q =>
    rw [inventoryStep_some] at h
    rcases hg : get_primary_location_id env st cl with ⟨r, gcs⟩
    rw [hg] at h
    cases r with
    | error e => exact absurd (congrArg (fun t => t.1) h) (by simp)
    | ok p =>
      obtain ⟨gloc, newLoc⟩ := p
      dsimp only at h
      injection h with h1 h2
      injection h2 with h3 h4
      rcases hg2 : get_primary_location_id env st2 newLoc with ⟨r2, gcs2⟩
      have hr2 : r2 = Except.ok (gloc, newLoc) := by
        have hidem := gp_idem env st st2 cl hl hg
        rw [hg2] at hidem
        exact hidem
      refine ⟨gcs2 ++ set_inventory_absolute item gloc q, ?_, ?_⟩
      · rw [← h3, inventoryStep_some, hg2, hr2]
      · rw [← h4, List.filter_append, List.filter_append]
        have w1 : gcs.filter Call.isWrite = [] := by
          have hw := gp_calls_write_free env st cl
          rw [hg] at hw
          exact hw
        have w2 : gcs2.filter Call.isWrite = [] := by
          have hw := gp_calls_write_free env st2 newLoc
          rw [hg2] at hw
          exact hw
        rw [w1, w2]

/-! ### Call classifier implications -/

theorem plw_not_default {x : Call} (h : x.isPriceListWrite = true) :
    x.isDefaultPriceWrite = false := by
  cases x <;> first | rfl | exact absurd h (by simp [Call.isPriceListWrite])

theorem plw_not_invCall {x : Call} (h : x.isPriceListWrite = true) :
    x.isInventoryCall = false := by
  cases x <;> first | rfl | exact absurd h (by simp [Call.isPriceListWrite])

theorem plw_write {x : Call} (h : x.isPriceListWrite = true) :
    x.isWrite = true := by
  cases x <;> first | rfl | exact absurd h (by simp [Call.isPriceListWrite])

theorem invCall_not_default {x : Call} (h : x.isInventoryCall = true) :
    x.isDefaultPriceWrite = false := by
  cases x <;> first | rfl | exact absurd h (by simp [Call.isInventoryCall])

theorem invCall_not_plw {x : Call} (h : x.isInventoryCall = true) :
    x.isPriceListWrite = false := by
  cases x <;> first | rfl | exact absurd h (by simp [Call.isInventoryCall])

theorem set_imp_invCall {x : Call} (h : x.isInventorySet = true) :
    x.isInventoryCall = true := by
  cases x <;> first | rfl | exact absurd h (by simp [Call.isInventorySet])

theorem not_invCall_not_set {x : Call} (h : x.isInventoryCall = false) :
    x.isInventorySet = false := by
  cases x <;> first | rfl | exact absurd h (by simp [Call.isInventoryCall])

/-! ### Base call block lemmas -/

theorem update_variant_details_shape (gid : String) (t b : Option String) :
    update_variant_details gid t b = [] ∨
    ∃ t2 b2, update_variant_details gid t b =
      [Call.variantDetailsWrite (lastSeg gid) t2 b2] := by
  unfold update_variant_details
  split
  · right; exact ⟨_, _, rfl⟩
  · left; rfl

theorem update_product_title_shape (pgid : String) (t : Option String) :
    update_product_title pgid t = [] ∨
    update_product_title pgid t =
      [Call.productTitleWrite (lastSeg pgid) (t.getD "")] := by
  unfold update_product_title
  split
  · right; rfl
  · left; rfl

theorem baseCalls_mem (req : Request) (v : VariantInfo) :
    ∀ x ∈ baseCalls req v,
      x.isWrite = true ∧ x.isPriceListWrite = false ∧
        x.isInventoryCall = false := by
  intro x hx
  unfold baseCalls at hx
  rcases List.mem_append.mp hx with hx | hx
  · rcases List.mem_append.mp hx with hx | hx
    · rcases List.mem_append.mp hx with hx | hx
      · rcases update_variant_details_shape v.variantGid req.title req.barcode
          with h | ⟨t2, b2, h⟩ <;> rw [h] at hx
        · exact absurd hx (by simp)
        · have hx2 : x = Call.variantDetailsWrite (lastSeg v.variantGid) t2 b2 := by
            simpa using hx
          rw [hx2]; exact ⟨rfl, rfl, rfl⟩
      · rcases update_product_title_shape v.productGid req.title
          with h | h <;> rw [h] at hx
        · exact absurd hx (by simp)
        · have hx2 : x = Call.productTitleWrite (lastSeg v.productGid)
              (req.title.getD "") := by simpa using hx
          rw [hx2]; exact ⟨rfl, rfl, rfl⟩
    · by_cases hs : truthyStr req.size
      · rw [if_pos hs] at hx
        have hx2 : x = Call.metafieldSet v.variantGid "custom" "size"
            "single_line_text_field" (req.size.getD "") := by simpa using hx
        rw [hx2]; exact ⟨rfl, rfl, rfl⟩
      · rw [if_neg hs] at hx
        exact absurd hx (by simp)
  · cases htn : toNumber req.uaePrice with
    | none => rw [htn] at hx; exact absurd hx (by simp)
    | some p =>
      rw [htn] at hx
      have hx2 : x = Call.defaultPriceWrite (lastSeg v.variantGid) p
          (toNumber req.uaeCompare) := by
        simpa [update_variant_default_price] using hx
      rw [hx2]; exact ⟨rfl, rfl, rfl⟩

theorem baseCalls_filter_default (req : Request) (v : VariantInfo) :
    (baseCalls req v).filter Call.isDefaultPriceWrite =
      (match toNumber req.uaePrice with
       | some p => [Call.defaultPriceWrite (lastSeg v.variantGid) p
           (toNumber req.uaeCompare)]
       | none => []) := by
  unfold baseCalls
  rw [List.filter_append, List.filter_append, List.filter_append]
  have h1 : (update_variant_details v.variantGid req.title req.barcode).filter
      Call.isDefaultPriceWrite = [] := by
    rcases update_variant_details_shape v.variantGid req.title req.barcode
      with h | ⟨t2, b2, h⟩ <;> rw [h] <;> rfl
  have h2 : (update_product_title v.productGid req.title).filter
      Call.isDefaultPriceWrite = [] := by
    rcases update_product_title_shape v.productGid req.title
      with h | h <;> rw [h] <;> rfl
  have h3 : ((if truthyStr req.size then
      [Call.metafieldSet v.variantGid "custom" "size" "single_line_text_field"
        (req.size.getD "")] else []) : List Call).filter
      Call.isDefaultPriceWrite = [] := by
    split <;> rfl
  rw [h1, h2, h3]
  cases htn : toNumber req.uaePrice with
  | none => rfl
  | some p => rfl

/-! ### Webhook equation lemmas -/

theorem webhookResolved_error (env : Env) (st : Shopify) (c : Cache)
    (req : Request) (v : VariantInfo) {e : PyErr} {locC : Option String}
    {cs : List Call}
    (h : inventoryStep env st c.primaryLocationId
        (st.inventoryItemId (lastSeg v.variantGid)) (toNumber req.qty) =
      (Except.error e, locC, cs)) :
    webhookResolved env st c req v =
      (Outcome.exception e, ⟨c.priceLists, locC⟩, baseCalls req v ++ cs) := by
  unfold webhookResolved
  rw [h]

theorem webhookResolved_ok (env : Env) (st : Shopify) (c : Cache)
    (req : Request) (v : VariantInfo) {locC : Option String} {cs : List Call}
    (h : inventoryStep env st c.primaryLocationId
        (st.inventoryItemId (lastSeg v.variantGid)) (toNumber req.qty) =
      (Except.ok (), locC, cs)) :
    webhookResolved env st c req v =
      (Outcome.success,
       ⟨(get_market_price_lists st c.priceLists).2.1, locC⟩,
       baseCalls req v ++ cs ++ (get_market_price_lists st c.priceLists).2.2 ++
         marketLoop (get_market_price_lists st c.priceLists).1 v.variantGid
           (pricesOf req) (compareOf req)) := by
  unfold webhookResolved
  rw [h]

theorem webhook_eq_resolved (env : Env) (st : Shopify) (c : Cache)
    (req : Request) {sku : String} {v : VariantInfo}
    (hs : pyStrip (req.secretHeader.getD "") = env.webhookSecret)
    (hsku : req.sku = some sku) (hne : sku ≠ "")
    (hv : st.variantBySku sku = some v) :
    airtable_webhook env st c req =
      ((webhookResolved env st c req v).1,
       (webhookResolved env st c req v).2.1,
       Call.variantQuery sku :: Call.variantGet (lastSeg v.variantGid) ::
         (webhookResolved env st c req v).2.2) := by
  have hcond : ¬ (pyStrip (req.secretHeader.getD "") ≠ env.webhookSecret) :=
    fun hh => hh hs
  unfold airtable_webhook
  rw [if_neg hcond, hsku]
  dsimp only
  rw [if_neg hne, hv]

theorem resolved_success_inv (env : Env) (st : Shopify) (c : Cache)
    (req : Request) (v : VariantInfo)
    (h : (webhookResolved env st c req v).1 = Outcome.success) :
    ∃ locC cs, inventoryStep env st c.primaryLocationId
        (st.inventoryItemId (lastSeg v.variantGid)) (toNumber req.qty) =
      (Except.ok (), locC, cs) := by
  rcases hinv : inventoryStep env st c.primaryLocationId
      (st.inventoryItemId (lastSeg v.variantGid)) (toNumber req.qty)
    with ⟨r, locC, cs⟩
  cases r with
  | error e =>
    rw [webhookResolved_error env st c req v hinv] at h
    exact absurd h (by simp)
  | ok u =>
    cases u
    exact ⟨locC, cs, rfl⟩

theorem webhook_success_inv (env : Env) (st : Shopify) (c : Cache)
    (req : Request)
    (h : (airtable_webhook env st c req).1 = Outcome.success) :
    pyStrip (req.secretHeader.getD "") = env.webhookSecret ∧
    ∃ sku v, req.sku = some sku ∧ sku ≠ "" ∧
      st.variantBySku sku = some v ∧
      (webhookResolved env st c req v).1 = Outcome.success := by
  unfold airtable_webhook at h
  by_cases h1 : pyStrip (req.secretHeader.getD "") ≠ env.webhookSecret
  · rw [if_pos h1] at h
    exact absurd h (by simp)
  · rw [if_neg h1] at h
    have hs : pyStrip (req.secretHeader.getD "") = env.webhookSecret :=
      of_not_not h1
    refine ⟨hs, ?_⟩
    cases hsku : req.sku with
    | none => rw [hsku] at h; exact absurd h (by simp)
    | some sku =>
      rw [hsku] at h
      dsimp only at h
      by_cases hne : sku = ""
      · rw [if_pos hne] at h
        exact absurd h (by simp)
      · rw [if_neg hne] at h
        cases hv : st.variantBySku sku with
        | none => rw [hv] at h; exact absurd h (by simp)
        | some v =>
          rw [hv] at h
          exact ⟨sku, v, rfl, hne, hv, h⟩

/-! ### Filters over a resolved run -/

theorem resolved_filter_default (env : Env) (st : Shopify) (c : Cache)
    (req : Request) (v : VariantInfo) :
    ((webhookResolved env st c req v).2.2).filter Call.isDefaultPriceWrite =
      (match toNumber req.uaePrice with
       | some p => [Call.defaultPriceWrite (lastSeg v.variantGid) p
           (toNumber req.uaeCompare)]
       | none => []) := by
  rcases hinv : inventoryStep env st c.primaryLocationId
      (st.inventoryItemId (lastSeg v.variantGid)) (toNumber req.qty)
    with ⟨r, locC, cs⟩
  have hcs : cs.filter Call.isDefaultPriceWrite = [] := by
    apply filter_nil_of_mem
    intro x hx
    apply invCall_not_default
    have hm := inventoryStep_calls_mem env st c.primaryLocationId
      (st.inventoryItemId (lastSeg v.variantGid)) (toNumber req.qty)
    rw [hinv] at hm
    exact hm x hx
  cases r with
  | error e =>
    rw [webhookResolved_error env st c req v hinv]
    dsimp only
    rw [List.filter_append, hcs, baseCalls_filter_default, List.append_nil]
  | ok u =>
    cases u
    rw [webhookResolved_ok env st c req v hinv]
    dsimp only
    rw [List.filter_append, List.filter_append, List.filter_append,
      baseCalls_filter_default, hcs]
    have hpl : ((get_market_price_lists st c.priceLists).2.2).filter
        Call.isDefaultPriceWrite = [] := by
      rcases gmpl_calls st c.priceLists with h | h <;> rw [h] <;> rfl
    have hml : (marketLoop (get_market_price_lists st c.priceLists).1
        v.variantGid (pricesOf req) (compareOf req)).filter
        Call.isDefaultPriceWrite = [] := by
      apply filter_nil_of_mem
      intro x hx
      exact plw_not_default (marketLoop_mem _ _ _ _ hx)
    rw [hpl, hml]
    simp

theorem resolved_filter_plw_ok (env : Env) (st : Shopify) (c : Cache)
    (req : Request) (v : VariantInfo) {locC : Option String} {cs : List Call}
    (hinv : inventoryStep env st c.primaryLocationId
        (st.inventoryItemId (lastSeg v.variantGid)) (toNumber req.qty) =
      (Except.ok (), locC, cs)) :
    ((webhookResolved env st c req v).2.2).filter Call.isPriceListWrite =
      marketLoop (get_market_price_lists st c.priceLists).1 v.variantGid
        (pricesOf req) (compareOf req) := by
  rw [webhookResolved_ok env st c req v hinv]
  dsimp only
  rw [List.filter_append, List.filter_append, List.filter_append]
  have h1 : (baseCalls req v).filter Call.isPriceListWrite = [] :=
    filter_nil_of_mem (fun x hx => (baseCalls_mem req v x hx).2.1)
  have h2 : cs.filter Call.isPriceListWrite = [] := by
    apply filter_nil_of_mem
    intro x hx
    apply invCall_not_plw
    have hm := inventoryStep_calls_mem env st c.primaryLocationId
      (st.inventoryItemId (lastSeg v.variantGid)) (toNumber req.qty)
    rw [hinv] at hm
    exact hm x hx
  have h3 : ((get_market_price_lists st c.priceLists).2.2).filter
      Call.isPriceListWrite = [] := by
    rcases gmpl_calls st c.priceLists with h | h <;> rw [h] <;> rfl
  rw [h1, h2, h3,
    filter_self_of_mem (fun x hx => marketLoop_mem _ _ _ _ hx)]
  simp

theorem resolved_filter_invCall (env : Env) (st : Shopify) (c : Cache)
    (req : Request) (v : VariantInfo) :
    ((webhookResolved env st c req v).2.2).filter Call.isInventoryCall =
      (inventoryStep env st c.primaryLocationId
        (st.inventoryItemId (lastSeg v.variantGid)) (toNumber req.qty)).2.2 := by
  rcases hinv : inventoryStep env st c.primaryLocationId
      (st.inventoryItemId (lastSeg v.variantGid)) (toNumber req.qty)
    with ⟨r, locC, cs⟩
  have hcs : cs.filter Call.isInventoryCall = cs := by
    apply filter_self_of_mem
    have hm := inventoryStep_calls_mem env st c.primaryLocationId
      (st.inventoryItemId (lastSeg v.variantGid)) (toNumber req.qty)
    rw [hinv] at hm
    exact hm
  have hbase : (baseCalls req v).filter Call.isInventoryCall = [] :=
    filter_nil_of_mem (fun x hx => (baseCalls_mem req v x hx).2.2)
  cases r with
  | error e =>
    rw [webhookResolved_error env st c req v hinv]
    dsimp only
    rw [List.filter_append, hbase, hcs]
    simp
  | ok u =>
    cases u
    rw [webhookResolved_ok env st c req v hinv]
    dsimp only
    rw [List.filter_append, List.filter_append, List.filter_append, hbase, hcs]
    have hpl : ((get_market_price_lists st c.priceLists).2.2).filter
        Call.isInventoryCall = [] := by
      rcases gmpl_calls st c.priceLists with h | h <;> rw [h] <;> rfl
    have hml : (marketLoop (get_market_price_lists st c.priceLists).1
        v.variantGid (pricesOf req) (compareOf req)).filter
        Call.isInventoryCall = [] := by
      apply filter_nil_of_mem
      intro x hx
      exact plw_not_invCall (marketLoop_mem _ _ _ _ hx)
    rw [hpl, hml]
    simp

theorem resolved_writes_ok (env : Env) (st : Shopify) (c : Cache)
    (req : Request) (v : VariantInfo) {locC : Option String} {cs : List Call}
    (hinv : inventoryStep env st c.primaryLocationId
        (st.inventoryItemId (lastSeg v.variantGid)) (toNumber req.qty) =
      (Except.ok (), locC, cs)) :
    ((webhookResolved env st c req v).2.2).filter Call.isWrite =
      baseCalls req v ++ cs.filter Call.isWrite ++
        marketLoop (get_market_price_lists st c.priceLists).1 v.variantGid
          (pricesOf req) (compareOf req) := by
  rw [webhookResolved_ok env st c req v hinv]
  dsimp only
  rw [List.filter_append, List.filter_append, List.filter_append]
  have h3 : ((get_market_price_lists st c.priceLists).2.2).filter
      Call.isWrite = [] := by
    rcases gmpl_calls st c.priceLists with h | h <;> rw [h] <;> rfl
  rw [filter_self_of_mem (fun x hx => (baseCalls_mem req v x hx).1), h3,
    filter_self_of_mem (fun x hx => plw_write (marketLoop_mem _ _ _ _ hx))]
  simp

/-! ### Endpoint outcome helpers -/

theorem webhook_401 (env : Env) (st : Shopify) (c : Cache) (req : Request)
    (h : pyStrip (req.secretHeader.getD "") ≠ env.webhookSecret) :
    airtable_webhook env st c req = (Outcome.unauthorized, c, []) := by
  unfold airtable_webhook
  rw [if_pos h]

theorem webhook_400 (env : Env) (st : Shopify) (c : Cache) (req : Request)
    (hs : pyStrip (req.secretHeader.getD "") = env.webhookSecret)
    (h : req.sku = none ∨ req.sku = some "") :
    airtable_webhook env st c req = (Outcome.skuMissing, c, []) := by
  have hcond : ¬ (pyStrip (req.secretHeader.getD "") ≠ env.webhookSecret) :=
    fun hh => hh hs
  unfold airtable_webhook
  rw [if_neg hcond]
  rcases h with h | h <;> rw [h]
  dsimp only
  rw [if_pos rfl]

theorem webhook_404 (env : Env) (st : Shopify) (c : Cache) (req : Request)
    (sku : String)
    (hs : pyStrip (req.secretHeader.getD "") = env.webhookSecret)
    (hsku : req.sku = some sku) (hne : sku ≠ "")
    (hv : st.variantBySku sku = none) :
    airtable_webhook env st c req =
      (Outcome.variantNotFound, c, [Call.variantQuery sku]) := by
  have hcond : ¬ (pyStrip (req.secretHeader.getD "") ≠ env.webhookSecret) :=
    fun hh => hh hs
  unfold airtable_webhook
  rw [if_neg hcond, hsku]
  dsimp only
  rw [if_neg hne, hv]

/-! ### Concrete fixtures -/

def env0 : Env := ⟨"s", none⟩

def envLoc : Env := ⟨"s", some "LOC9"⟩

def v0 : VariantInfo :=
  ⟨"gid://shopify/ProductVariant/111", "gid://shopify/Product/222"⟩

def st0 : Shopify :=
  { variantBySku := fun s => if s = "ABC-1" then some v0 else none
    inventoryItemId := fun _ => "itm1"
    variantPrice := fun _ => 100
    catalogs := [⟨"United Arab Emirates", "ACTIVE", some ⟨"pl_uae", "AED"⟩⟩,
                 ⟨"Asia Market with 55 rate", "ACTIVE", some ⟨"pl_asia", "USD"⟩⟩]
    locations := Except.ok ["L1"]
    priceListFixedPrice := fun _ _ => some 100 }

def stNoCat : Shopify := { st0 with catalogs := [] }

def stLocEmpty : Shopify := { st0 with locations := Except.ok [] }

def stLocFail : Shopify := { st0 with locations := Except.error () }

def c0 : Cache := ⟨none, none⟩

def req0 : Request :=
  ⟨some "s", some "ABC-1", none, none, none,
   RawNum.absent, RawNum.absent, RawNum.absent,
   RawNum.absent, RawNum.absent, RawNum.absent, RawNum.absent⟩

def reqUAE100 : Request := { req0 with uaePrice := RawNum.numeric 100 }

def reqUAE120 : Request := { req0 with uaePrice := RawNum.numeric 120 }

def reqQty0 : Request := { req0 with qty := RawNum.numeric 0 }

def q27 : ℚ := ⟨27, 10, by decide, by decide⟩

def reqQtyFrac : Request := { req0 with qty := RawNum.numeric q27 }

def reqQtyNeg : Request := { req0 with qty := RawNum.numeric (-q27) }

def reqNoSku : Request := { req0 with sku := none }

/-! ### Claim C6 -/

/-- C6: for every request whose shared secret passes and whose payload lacks
a SKU (absent key or empty string), the endpoint returns the 400
"SKU missing" outcome and issues zero remote calls. -/
theorem C6_missing_sku_rejected (env : Env) (st : Shopify) (c : Cache)
    (req : Request)
    (hs : pyStrip (req.secretHeader.getD "") = env.webhookSecret)
    (h : req.sku = none ∨ req.sku = some "") :
    (airtable_webhook env st c req).1 = Outcome.skuMissing ∧
    ((airtable_webhook env st c req).1).status = 400 ∧
    (airtable_webhook env st c req).2.2 = [] := by
  rw [webhook_400 env st c req hs h]
  exact ⟨rfl, rfl, rfl⟩

/-- C6 witness: a concrete authorized request with the SKU key absent. -/
theorem C6_witness :
    pyStrip ((reqNoSku.secretHeader).getD "") = env0.webhookSecret ∧
    (airtable_webhook env0 st0 c0 reqNoSku).1 = Outcome.skuMissing ∧
    ((airtable_webhook env0 st0 c0 reqNoSku).1).status = 400 ∧
    (airtable_webhook env0 st0 c0 reqNoSku).2.2 = [] := by
  have h := C6_missing_sku_rejected env0 st0 c0 reqNoSku (by decide)
    (Or.inl rfl)
  exact ⟨by decide, h.1, h.2.1, h.2.2⟩

/-! ### Claim C9 -/

/-- C9 counterexample: with no override and no cache, an empty location list
makes the resolver fail with `IndexError`, while a failed locations read
fails with `HTTPError` — different exception classes, contradicting the
claim that the empty list uses the same error class as remote-call
failures. -/
theorem C9_counterexample :
    get_primary_location_id env0 stLocEmpty none =
      (Except.error PyErr.indexError, [Call.locationsGet]) ∧
    get_primary_location_id env0 stLocFail none =
      (Except.error PyErr.httpError, [Call.locationsGet]) ∧
    PyErr.indexError ≠ PyErr.httpError := by
  refine ⟨?_, ?_, ?_⟩ <;> decide

/-- C9 (amended): with no truthy override and no truthy cached value, an
empty location list makes `get_primary_location_id` raise `IndexError`
after its one locations read, whereas a failed read raises `HTTPError`;
both abort the reconciliation, but the exception classes differ. -/
theorem C9_empty_locations_raise_index_error (env : Env) (st st2 : Shopify)
    (cl : Option String)
    (hpref : truthyStr env.preferredLocationId = false)
    (hcl : truthyStr cl = false)
    (hempty : st.locations = Except.ok [])
    (hfail : st2.locations = Except.error ()) :
    get_primary_location_id env st cl =
      (Except.error PyErr.indexError, [Call.locationsGet]) ∧
    get_primary_location_id env st2 cl =
      (Except.error PyErr.httpError, [Call.locationsGet]) ∧
    PyErr.indexError ≠ PyErr.httpError := by
  refine ⟨?_, ?_, by simp⟩
  · unfold get_primary_location_id
    rw [if_neg (by simp [hpref]), if_neg (by simp [hcl]), hempty]
  · unfold get_primary_location_id
    rw [if_neg (by simp [hpref]), if_neg (by simp [hcl]), hfail]

/-- C9 witness: the amended statement at the concrete empty/failing
fixtures. -/
theorem C9_witness :
    get_primary_location_id env0 stLocEmpty none =
      (Except.error PyErr.indexError, [Call.locationsGet]) ∧
    get_primary_location_id env0 stLocFail none =
      (Except.error PyErr.httpError, [Call.locationsGet]) := by
  have h := C9_empty_locations_raise_index_error env0 stLocEmpty stLocFail none
    (by decide) (by decide) (by decide) (by decide)
  exact ⟨h.1, h.2.1⟩

/-! ### Claim C8 -/

/-- C8 counterexample: a first successful resolve that yields an empty
mapping stores the empty dictionary in the cache, but Python truthiness
rejects it on the next call, which therefore issues the remote catalogs
query again — contradicting "subsequent calls make no remote call,
including for an empty mapping". -/
theorem C8_counterexample :
    (get_market_price_lists stNoCat none).1 = [] ∧
    (get_market_price_lists stNoCat none).2.1 = some [] ∧
    (get_market_price_lists stNoCat (some [])).2.2 = [Call.catalogsQuery] := by
  refine ⟨?_, ?_, ?_⟩ <;> decide

/-- C8 (amended): the cache short-circuits only a non-empty mapping: a
cached non-empty mapping is returned as-is with zero remote calls, while a
cached empty mapping fails the truthiness test and triggers a fresh remote
catalogs query on every subsequent call. -/
theorem C8_cache_effective_only_when_nonempty (st : Shopify)
    (pls : List (String × MarketEntry)) (hne : pls ≠ []) :
    get_market_price_lists st (some pls) = (pls, some pls, []) ∧
    (get_market_price_lists st (some [])).2.2 = [Call.catalogsQuery] :=
  ⟨gmpl_cached st pls hne, rfl⟩

/-- C8 witness: the amended statement at a concrete non-empty mapping. -/
theorem C8_witness :
    get_market_price_lists st0
        (some [("United Arab Emirates", ⟨"pl_uae", "AED"⟩)]) =
      ([("United Arab Emirates", ⟨"pl_uae", "AED"⟩)],
       some [("United Arab Emirates", ⟨"pl_uae", "AED"⟩)], []) ∧
    (get_market_price_lists st0 (some [])).2.2 = [Call.catalogsQuery] :=
  C8_cache_effective_only_when_nonempty st0
    [("United Arab Emirates", ⟨"pl_uae", "AED"⟩)] (by decide)

/-! ### Claim C4 -/

/-- C4 counterexample: the fixed table maps "Asia" to "Asia Market with 55
rate" and "America" to "America catlog", not to "Asia Market" and
"International Market" as the claim states. -/
theorem C4_counterexample :
    dictGet MARKET_NAMES "Asia" = some "Asia Market with 55 rate" ∧
    dictGet MARKET_NAMES "America" = some "America catlog" ∧
    some "Asia Market with 55 rate" ≠ some "Asia Market" ∧
    some "America catlog" ≠ some "International Market" := by
  refine ⟨?_, ?_, ?_, ?_⟩ <;> decide

/-- C4 (amended): the fixed lookup table is exactly {"UAE" → "United Arab
Emirates", "Asia" → "Asia Market with 55 rate", "America" → "America
catlog"}; a priced market whose mapped title has no entry in the resolved
directory leaves the loop's output unchanged (it is skipped), and a
resolved run without an inventory step always ends in success, whatever the
directory contains — no error is raised for unmapped markets. -/
theorem C4_market_table_and_unmapped_skip :
    MARKET_NAMES = [("UAE", "United Arab Emirates"),
      ("Asia", "Asia Market with 55 rate"), ("America", "America catlog")] ∧
    (∀ (pls : List (String × MarketEntry)) (gid : String)
        (cmp : List (String × Option ℚ)) (acc : List Call) (m : String) (p : ℚ),
      (dictGet MARKET_NAMES m).bind (dictGet pls) = none →
      marketStep pls gid cmp acc (m, some p) = acc) ∧
    (∀ (env : Env) (st : Shopify) (c : Cache) (req : Request) (sku : String)
        (v : VariantInfo),
      pyStrip (req.secretHeader.getD "") = env.webhookSecret →
      req.sku = some sku → sku ≠ "" → st.variantBySku sku = some v →
      toNumber req.qty = none →
      (airtable_webhook env st c req).1 = Outcome.success) := by
  refine ⟨rfl, ?_, ?_⟩
  · intro pls gid cmp acc m p h
    unfold marketStep
    dsimp only
    rw [h]
  · intro env st c req sku v hs hsku hne hv hq
    have hinv : inventoryStep env st c.primaryLocationId
        (st.inventoryItemId (lastSeg v.variantGid)) (toNumber req.qty) =
        (Except.ok (), c.primaryLocationId, []) := by
      rw [hq]
      exact inventoryStep_none env st c.primaryLocationId _
    rw [webhook_eq_resolved env st c req hs hsku hne hv]
    dsimp only
    rw [webhookResolved_ok env st c req v hinv]

/-- C4 witness: the amended statement exercised at a concrete unmapped
market ("Asia" priced, mapped title not in the directory) and a concrete
successful run. -/
theorem C4_witness :
    marketStep [("United Arab Emirates", ⟨"pl_uae", "AED"⟩)] "g" [] []
      ("Asia", some 7) = [] ∧
    (airtable_webhook env0 st0 c0
      { req0 with asiaPrice := RawNum.numeric 7 }).1 = Outcome.success := by
  have h := C4_market_table_and_unmapped_skip
  refine ⟨h.2.1 [("United Arab Emirates", ⟨"pl_uae", "AED"⟩)] "g" [] []
    "Asia" 7 (by decide), ?_⟩
  exact h.2.2 env0 st0 c0 { req0 with asiaPrice := RawNum.numeric 7 }
    "ABC-1" v0 (by decide) rfl (by decide) (by decide) rfl

/-! ### Claim C1 -/

/-- C1 counterexample: the variant's current default price equals the
proposed `UAE price` (both 100.00), yet the endpoint still issues exactly
one default-price write — the read-and-skip behaviour the claim describes
does not exist (`get_variant_default_price` is never called). -/
theorem C1_counterexample :
    st0.variantPrice "111" = 100 ∧
    toNumber reqUAE100.uaePrice = some 100 ∧
    (((airtable_webhook env0 st0 c0 reqUAE100).2.2).filter
      Call.isDefaultPriceWrite).length = 1 := by
  refine ⟨rfl, rfl, ?_⟩
  decide

/-- C1 (amended): whenever the `UAE price` field parses to a number, the
endpoint issues exactly one default-price write carrying that price and the
parsed `UAE Comparison Price`, regardless of the variant's current default
price; the current default price is never read — the whole run is invariant
under changing it. -/
theorem C1_default_write_unconditional (env : Env) (st : Shopify) (c : Cache)
    (req : Request) (sku : String) (v : VariantInfo) (p : ℚ)
    (hs : pyStrip (req.secretHeader.getD "") = env.webhookSecret)
    (hsku : req.sku = some sku) (hne : sku ≠ "")
    (hv : st.variantBySku sku = some v)
    (hp : toNumber req.uaePrice = some p) :
    ((airtable_webhook env st c req).2.2).filter Call.isDefaultPriceWrite =
      [Call.defaultPriceWrite (lastSeg v.variantGid) p
        (toNumber req.uaeCompare)] ∧
    ∀ f : String → ℚ,
      airtable_webhook env { st with variantPrice := f } c req =
        airtable_webhook env st c req := by
  constructor
  · rw [webhook_eq_resolved env st c req hs hsku hne hv]
    have h := resolved_filter_default env st c req v
    rw [hp] at h
    exact h
  · intro f
    rfl

/-- C1 witness: the amended statement at the concrete fixture. -/
theorem C1_witness :
    ((airtable_webhook env0 st0 c0 reqUAE100).2.2).filter
      Call.isDefaultPriceWrite = [Call.defaultPriceWrite "111" 100 none] ∧
    airtable_webhook env0 { st0 with variantPrice := fun _ => 55 } c0
        reqUAE100 = airtable_webhook env0 st0 c0 reqUAE100 := by
  have h := C1_default_write_unconditional env0 st0 c0 reqUAE100 "ABC-1" v0
    100 (by decide) rfl (by decide) (by decide) rfl
  exact ⟨h.1.trans (by decide), h.2 (fun _ => 55)⟩

/-! ### Claim C2 -/

/-- C2 counterexample: the price list's current fixed price for the variant
equals the proposed price (both 100), yet a fixed-price write is still
issued — the engine never reads the price list's current fixed price. -/
theorem C2_counterexample :
    st0.priceListFixedPrice "pl_uae" "gid://shopify/ProductVariant/111" =
      some 100 ∧
    toNumber reqUAE100.uaePrice = some 100 ∧
    ((airtable_webhook env0 st0 c0 reqUAE100).2.2).filter
      Call.isPriceListWrite =
      [Call.priceListWrite "pl_uae" "gid://shopify/ProductVariant/111" 100
        "AED" none] := by
  refine ⟨rfl, rfl, ?_⟩
  decide

/-- C2 (amended): the engine never reads a price list's current fixed price
(the entire run is invariant under changing that state), and for every
priced market whose mapped title resolves to a MarketEntry the loop
unconditionally appends exactly one fixed-price write carrying the proposed
price and that market's comparison price; on a successful run the
price-list writes are exactly the loop's output. -/
theorem C2_price_list_write_unconditional :
    (∀ (env : Env) (st : Shopify) (c : Cache) (req : Request)
        (g : String → String → Option ℚ),
      airtable_webhook env { st with priceListFixedPrice := g } c req =
        airtable_webhook env st c req) ∧
    (∀ (pls : List (String × MarketEntry)) (gid : String)
        (cmp : List (String × Option ℚ)) (acc : List Call) (m : String)
        (p : ℚ) (pl : MarketEntry),
      (dictGet MARKET_NAMES m).bind (dictGet pls) = some pl →
      marketStep pls gid cmp acc (m, some p) =
        acc ++ [Call.priceListWrite pl.plid gid p pl.currency
          ((dictGet cmp m).join)]) ∧
    (∀ (env : Env) (st : Shopify) (c : Cache) (req : Request) (sku : String)
        (v : VariantInfo) (locC : Option String) (cs : List Call),
      pyStrip (req.secretHeader.getD "") = env.webhookSecret →
      req.sku = some sku → sku ≠ "" → st.variantBySku sku = some v →
      inventoryStep env st c.primaryLocationId
          (st.inventoryItemId (lastSeg v.variantGid)) (toNumber req.qty) =
        (Except.ok (), locC, cs) →
      ((airtable_webhook env st c req).2.2).filter Call.isPriceListWrite =
        marketLoop (get_market_price_lists st c.priceLists).1 v.variantGid
          (pricesOf req) (compareOf req)) := by
  refine ⟨?_, ?_, ?_⟩
  · intro env st c req g
    rfl
  · intro pls gid cmp acc m p pl h
    unfold marketStep
    dsimp only
    rw [h]
    rfl
  · intro env st c req sku v locC cs hs hsku hne hv hinv
    rw [webhook_eq_resolved env st c req hs hsku hne hv]
    exact resolved_filter_plw_ok env st c req v hinv

/-- C2 witness: the amended statement at the concrete fixture — the mapped
UAE market yields exactly one unconditional fixed-price write. -/
theorem C2_witness :
    airtable_webhook env0
        { st0 with priceListFixedPrice := fun _ _ => none } c0 reqUAE100 =
      airtable_webhook env0 st0 c0 reqUAE100 ∧
    marketStep [("United Arab Emirates", ⟨"pl_uae", "AED"⟩)] "g" [] []
      ("UAE", some 100) =
      [Call.priceListWrite "pl_uae" "g" 100 "AED" none] ∧
    ((airtable_webhook env0 st0 c0 reqUAE100).2.2).filter
      Call.isPriceListWrite =
      marketLoop (get_market_price_lists st0 c0.priceLists).1 v0.variantGid
        (pricesOf reqUAE100) (compareOf reqUAE100) := by
  have h := C2_price_list_write_unconditional
  refine ⟨h.1 env0 st0 c0 reqUAE100 (fun _ _ => none), ?_, ?_⟩
  · exact (h.2.1 [("United Arab Emirates", ⟨"pl_uae", "AED"⟩)] "g" [] []
      "UAE" 100 ⟨"pl_uae", "AED"⟩ (by decide)).trans (by decide)
  · exact h.2.2 env0 st0 c0 reqUAE100 "ABC-1" v0 none [] (by decide) rfl
      (by decide) (by decide) rfl

/-- A request with the Asia and America price and comparison fields
replaced — used to state field-independence. -/
def withOtherMarkets (req : Request) (x y z w : RawNum) : Request :=
  { req with
      asiaPrice := x
      americaPrice := y
      asiaCompare := z
      americaCompare := w }

theorem plw_not_set {x : Call} (h : x.isPriceListWrite = true) :
    x.isInventorySet = false := by
  cases x <;> first | rfl | exact absurd h (by simp [Call.isPriceListWrite])

theorem resolved_filter_set (env : Env) (st : Shopify) (c : Cache)
    (req : Request) (v : VariantInfo) :
    ((webhookResolved env st c req v).2.2).filter Call.isInventorySet =
      ((inventoryStep env st c.primaryLocationId
        (st.inventoryItemId (lastSeg v.variantGid))
        (toNumber req.qty)).2.2).filter Call.isInventorySet := by
  rcases hinv : inventoryStep env st c.primaryLocationId
      (st.inventoryItemId (lastSeg v.variantGid)) (toNumber req.qty)
    with ⟨r, locC, cs⟩
  have hbase : (baseCalls req v).filter Call.isInventorySet = [] :=
    filter_nil_of_mem
      (fun x hx => not_invCall_not_set (baseCalls_mem req v x hx).2.2)
  cases r with
  | error e =>
    rw [webhookResolved_error env st c req v hinv]
    dsimp only
    rw [List.filter_append, hbase]
    simp
  | ok u =>
    cases u
    rw [webhookResolved_ok env st c req v hinv]
    dsimp only
    rw [List.filter_append, List.filter_append, List.filter_append, hbase]
    have hpl : ((get_market_price_lists st c.priceLists).2.2).filter
        Call.isInventorySet = [] := by
      rcases gmpl_calls st c.priceLists with h | h <;> rw [h] <;> rfl
    have hml : (marketLoop (get_market_price_lists st c.priceLists).1
        v.variantGid (pricesOf req) (compareOf req)).filter
        Call.isInventorySet = [] := by
      apply filter_nil_of_mem
      intro x hx
      exact plw_not_set (marketLoop_mem _ _ _ _ hx)
    rw [hpl, hml]
    simp

/-! ### Claim C3 -/

/-- C3 counterexample: `reqUAE120` differs from `req0` only in the
`UAE price` field — a per-market price entry — yet the default-price write
count changes from 0 to 1, and the same field also produces the UAE
price-list write: a market price value does trigger the default-price
write. -/
theorem C3_counterexample :
    reqUAE120 = { req0 with uaePrice := RawNum.numeric 120 } ∧
    (((airtable_webhook env0 st0 c0 req0).2.2).filter
      Call.isDefaultPriceWrite).length = 0 ∧
    (((airtable_webhook env0 st0 c0 reqUAE120).2.2).filter
      Call.isDefaultPriceWrite).length = 1 ∧
    (((airtable_webhook env0 st0 c0 reqUAE120).2.2).filter
      Call.isPriceListWrite).length = 1 := by
  refine ⟨rfl, ?_, ?_, ?_⟩ <;> decide

/-- C3 (amended): the default-price write is driven by the `UAE price`
field, which is also the UAE market's price entry: the Asia and America
price and comparison fields never influence the default-price writes (first
conjunct), while a parsed `UAE price` always produces exactly one
default-price write (second conjunct) — so default writes are independent
of the other markets' fields but coupled to the UAE market field. -/
theorem C3_default_write_coupled_to_uae_field (env : Env) (st : Shopify)
    (c : Cache) (req : Request) (x y z w : RawNum) :
    (((airtable_webhook env st c (withOtherMarkets req x y z w)).2.2).filter
      Call.isDefaultPriceWrite =
      ((airtable_webhook env st c req).2.2).filter
        Call.isDefaultPriceWrite) ∧
    (∀ (sku : String) (v : VariantInfo) (p : ℚ),
      pyStrip (req.secretHeader.getD "") = env.webhookSecret →
      req.sku = some sku → sku ≠ "" → st.variantBySku sku = some v →
      toNumber req.uaePrice = some p →
      ((airtable_webhook env st c req).2.2).filter Call.isDefaultPriceWrite =
        [Call.defaultPriceWrite (lastSeg v.variantGid) p
          (toNumber req.uaeCompare)]) := by
  constructor
  · by_cases h1 : pyStrip (req.secretHeader.getD "") ≠ env.webhookSecret
    · rw [webhook_401 env st c req h1,
        webhook_401 env st c _ (by exact h1)]
    · have hs : pyStrip (req.secretHeader.getD "") = env.webhookSecret :=
        of_not_not h1
      cases hsku : req.sku with
      | none =>
        rw [webhook_400 env st c req hs (Or.inl hsku),
          webhook_400 env st c _ (by exact hs) (Or.inl (by exact hsku))]
      | some sku =>
        by_cases hne : sku = ""
        · have hsku2 : req.sku = some "" := by rw [hsku, hne]
          rw [webhook_400 env st c req hs (Or.inr hsku2),
            webhook_400 env st c _ (by exact hs) (Or.inr (by exact hsku2))]
        · cases hv : st.variantBySku sku with
          | none =>
            rw [webhook_404 env st c req sku hs hsku hne hv,
              webhook_404 env st c _ sku (by exact hs) (by exact hsku) hne
                (by exact hv)]
          | some v =>
            rw [webhook_eq_resolved env st c req hs hsku hne hv,
              webhook_eq_resolved env st c _ (by exact hs) (by exact hsku)
                hne (by exact hv)]
            have d1 := resolved_filter_default env st c req v
            have d2 := resolved_filter_default env st c
              (withOtherMarkets req x y z w) v
            exact d2.trans d1.symm
  · intro sku v p hs hsku hne hv hp
    rw [webhook_eq_resolved env st c req hs hsku hne hv]
    have h := resolved_filter_default env st c req v
    rw [hp] at h
    exact h

/-- C3 witness: the amended statement at the concrete fixture — changing
Asia/America fields leaves the default write untouched, and the UAE field
produces it. -/
theorem C3_witness :
    (((airtable_webhook env0 st0 c0
        (withOtherMarkets reqUAE100 (RawNum.numeric 7) (RawNum.numeric 8)
          (RawNum.numeric 9) (RawNum.numeric 10))).2.2).filter
      Call.isDefaultPriceWrite =
      ((airtable_webhook env0 st0 c0 reqUAE100).2.2).filter
        Call.isDefaultPriceWrite) ∧
    ((airtable_webhook env0 st0 c0 reqUAE100).2.2).filter
      Call.isDefaultPriceWrite = [Call.defaultPriceWrite "111" 100 none] := by
  have h := C3_default_write_coupled_to_uae_field env0 st0 c0 reqUAE100
    (RawNum.numeric 7) (RawNum.numeric 8) (RawNum.numeric 9)
    (RawNum.numeric 10)
  exact ⟨h.1, (h.2 "ABC-1" v0 100 (by decide) rfl (by decide) (by decide)
    rfl).trans (by decide)⟩

/-! ### Claim C7 -/

/-- C7: on a resolved run, a quantity that is absent or blank produces no
inventory call at all (no location read, no set); a quantity of 0 produces
exactly one absolute inventory-level set call with value 0, provided the
primary location resolves — absence and zero are distinguished, and the set
carries an absolute `available` value. -/
theorem C7_qty_absent_vs_zero (env : Env) (st : Shopify) (c : Cache)
    (req : Request) (sku : String) (v : VariantInfo)
    (hs : pyStrip (req.secretHeader.getD "") = env.webhookSecret)
    (hsku : req.sku = some sku) (hne : sku ≠ "")
    (hv : st.variantBySku sku = some v) :
    (toNumber req.qty = none →
      ((airtable_webhook env st c req).2.2).filter Call.isInventoryCall =
        []) ∧
    (∀ (loc : String) (newLoc : Option String) (gcs : List Call),
      req.qty = RawNum.numeric 0 →
      get_primary_location_id env st c.primaryLocationId =
        (Except.ok (loc, newLoc), gcs) →
      ((airtable_webhook env st c req).2.2).filter Call.isInventorySet =
        [Call.inventorySet (st.inventoryItemId (lastSeg v.variantGid))
          loc 0]) := by
  constructor
  · intro hq
    rw [webhook_eq_resolved env st c req hs hsku hne hv]
    have h := resolved_filter_invCall env st c req v
    rw [hq] at h
    exact h.trans rfl
  · intro loc newLoc gcs hq hg
    rw [webhook_eq_resolved env st c req hs hsku hne hv]
    have h := resolved_filter_set env st c req v
    have hq2 : toNumber req.qty = some 0 := by rw [hq]; rfl
    rw [hq2, inventoryStep_some, hg] at h
    dsimp only at h
    rw [List.filter_append] at h
    have hgcs : gcs.filter Call.isInventorySet = [] := by
      have hsh := gp_calls env st c.primaryLocationId
      rw [hg] at hsh
      dsimp only at hsh
      rcases hsh with h2 | h2 <;> rw [h2] <;> rfl
    rw [hgcs] at h
    exact h.trans (by rfl)

/-- C7 witness: concrete runs — `req0` (quantity absent) yields no inventory
call; `reqQty0` (quantity 0) yields exactly one absolute set with value
0. -/
theorem C7_witness :
    ((airtable_webhook env0 st0 c0 req0).2.2).filter Call.isInventoryCall =
      [] ∧
    ((airtable_webhook env0 st0 c0 reqQty0).2.2).filter Call.isInventorySet =
      [Call.inventorySet "itm1" "L1" 0] := by
  have h1 := C7_qty_absent_vs_zero env0 st0 c0 req0 "ABC-1" v0 (by decide)
    rfl (by decide) (by decide)
  have h2 := C7_qty_absent_vs_zero env0 st0 c0 reqQty0 "ABC-1" v0 (by decide)
    rfl (by decide) (by decide)
  exact ⟨h1.1 rfl,
    (h2.2 "L1" (some "L1") [Call.locationsGet] rfl (by decide)).trans
      (by decide)⟩

/-! ### Claim C10 -/

/-- C10: any payload quantity that parses as a number is accepted — the run
still succeeds whatever the sign — and exactly one absolute inventory set
is issued whose value is the quantity truncated toward zero: floor for
non-negative quantities and ceiling for negative ones (so 2.7 is written as
2 and -2.7 as -2), with no non-negative-integer validation anywhere. -/
theorem C10_numeric_qty_truncated_toward_zero (env : Env) (st : Shopify)
    (c : Cache) (req : Request) (sku : String) (v : VariantInfo) (q : ℚ)
    (loc : String) (newLoc : Option String) (gcs : List Call)
    (hs : pyStrip (req.secretHeader.getD "") = env.webhookSecret)
    (hsku : req.sku = some sku) (hne : sku ≠ "")
    (hv : st.variantBySku sku = some v)
    (hq : req.qty = RawNum.numeric q)
    (hg : get_primary_location_id env st c.primaryLocationId =
      (Except.ok (loc, newLoc), gcs)) :
    (airtable_webhook env st c req).1 = Outcome.success ∧
    ((airtable_webhook env st c req).2.2).filter Call.isInventorySet =
      [Call.inventorySet (st.inventoryItemId (lastSeg v.variantGid)) loc
        (truncQ q)] ∧
    (∀ r : ℚ, 0 ≤ r → truncQ r = ⌊r⌋) ∧
    (∀ r : ℚ, r < 0 → truncQ r = ⌈r⌉) := by
  have hq2 : toNumber req.qty = some q := by rw [hq]; rfl
  have hinv : inventoryStep env st c.primaryLocationId
      (st.inventoryItemId (lastSeg v.variantGid)) (toNumber req.qty) =
      (Except.ok (), newLoc,
        gcs ++ set_inventory_absolute
          (st.inventoryItemId (lastSeg v.variantGid)) loc q) := by
    rw [hq2, inventoryStep_some, hg]
  refine ⟨?_, ?_, ?_, ?_⟩
  · rw [webhook_eq_resolved env st c req hs hsku hne hv]
    dsimp only
    rw [webhookResolved_ok env st c req v hinv]
  · rw [webhook_eq_resolved env st c req hs hsku hne hv]
    have h := resolved_filter_set env st c req v
    rw [hinv] at h
    dsimp only at h
    rw [List.filter_append] at h
    have hgcs : gcs.filter Call.isInventorySet = [] := by
      have hsh := gp_calls env st c.primaryLocationId
      rw [hg] at hsh
      dsimp only at hsh
      rcases hsh with h2 | h2 <;> rw [h2] <;> rfl
    rw [hgcs] at h
    exact h.trans (by rfl)
  · intro r hr
    unfold truncQ
    rw [Rat.floor_def]
    exact Int.tdiv_eq_ediv (Rat.num_nonneg.mpr hr) (by positivity)
  · intro r hr
    unfold truncQ
    have h1 : r.num.tdiv r.den = -((-r.num).tdiv r.den) := by
      rw [Int.neg_tdiv]; ring
    have h2 : (-r.num).tdiv (r.den : ℤ) = (-r.num) / (r.den : ℤ) :=
      Int.tdiv_eq_ediv (by have := Rat.num_neg.mpr hr; omega) (by positivity)
    have h3 : (⌈r⌉ : ℤ) = -⌊-r⌋ := by rw [Int.floor_neg]; ring
    have h4 : ⌊-r⌋ = ((-r).num / ((-r).den : ℤ)) := Rat.floor_def
    rw [h1, h2, h3, h4, Rat.neg_num, Rat.neg_den]

/-- C10 witness: quantity 2.7 is accepted and written as 2; quantity -2.7 is
accepted (run succeeds) and written as -2. -/
theorem C10_witness :
    (airtable_webhook env0 st0 c0 reqQtyFrac).1 = Outcome.success ∧
    ((airtable_webhook env0 st0 c0 reqQtyFrac).2.2).filter
      Call.isInventorySet = [Call.inventorySet "itm1" "L1" 2] ∧
    (airtable_webhook env0 st0 c0 reqQtyNeg).1 = Outcome.success ∧
    ((airtable_webhook env0 st0 c0 reqQtyNeg).2.2).filter
      Call.isInventorySet = [Call.inventorySet "itm1" "L1" (-2)] := by
  have h1 := C10_numeric_qty_truncated_toward_zero env0 st0 c0 reqQtyFrac
    "ABC-1" v0 q27 "L1" (some "L1") [Call.locationsGet] (by decide) rfl
    (by decide) (by decide) rfl (by decide)
  have h2 := C10_numeric_qty_truncated_toward_zero env0 st0 c0 reqQtyNeg
    "ABC-1" v0 (-q27) "L1" (some "L1") [Call.locationsGet] (by decide) rfl
    (by decide) (by decide) rfl (by decide)
  exact ⟨h1.1, (h1.2.1).trans (by decide), h2.1, (h2.2.1).trans (by decide)⟩

/-! ### Claim C5 -/

/-- C5 counterexample: the first run on `reqUAE100` succeeds and writes the
default price 100 and the UAE fixed price 100; a second identical run whose
reads observe exactly that written state (default price 100, fixed price
100) and the caches left by the first run still issues writes — not zero as
the claim requires. -/
theorem C5_counterexample :
    (airtable_webhook env0 st0 c0 reqUAE100).1 = Outcome.success ∧
    ((airtable_webhook env0
        { st0 with variantPrice := fun _ => 100,
                   priceListFixedPrice := fun _ _ => some 100 }
        ((airtable_webhook env0 st0 c0 reqUAE100).2.1) reqUAE100).2.2).filter
      Call.isWrite ≠ [] := by
  exact ⟨by decide, by decide⟩

/-- C5 (amended): reconcile is not write-idempotent; instead, after a
successful run, a second run with the same request — whose reads observe
any default/fixed price state (in particular the one produced by the first
run's writes; no other written state is ever read back) and the caches left
by the first run — issues exactly the same write calls as the first run,
not zero. -/
theorem C5_second_run_repeats_writes (env : Env) (st : Shopify) (c : Cache)
    (req : Request) (f : String → ℚ) (g : String → String → Option ℚ)
    (hsucc : (airtable_webhook env st c req).1 = Outcome.success) :
    ((airtable_webhook env
        { st with variantPrice := f, priceListFixedPrice := g }
        ((airtable_webhook env st c req).2.1) req).2.2).filter Call.isWrite =
      ((airtable_webhook env st c req).2.2).filter Call.isWrite := by
  have hirr : airtable_webhook env
      { st with variantPrice := f, priceListFixedPrice := g }
      ((airtable_webhook env st c req).2.1) req =
      airtable_webhook env st ((airtable_webhook env st c req).2.1) req := rfl
  rw [hirr]
  obtain ⟨hs, sku, v, hsku, hne, hv, hres⟩ :=
    webhook_success_inv env st c req hsucc
  obtain ⟨locC, cs, hinv⟩ := resolved_success_inv env st c req v hres
  have hc1 : (airtable_webhook env st c req).2.1 =
      (⟨(get_market_price_lists st c.priceLists).2.1, locC⟩ : Cache) := by
    rw [webhook_eq_resolved env st c req hs hsku hne hv]
    dsimp only
    rw [webhookResolved_ok env st c req v hinv]
  rw [hc1]
  obtain ⟨cs2, hinv2, hw⟩ := inventoryStep_idem env st st c.primaryLocationId
    (st.inventoryItemId (lastSeg v.variantGid)) (toNumber req.qty) rfl hinv
  have hinv2B : inventoryStep env st
      ((⟨(get_market_price_lists st c.priceLists).2.1, locC⟩ :
        Cache)).primaryLocationId
      (st.inventoryItemId (lastSeg v.variantGid)) (toNumber req.qty) =
      (Except.ok (), locC, cs2) := hinv2
  rw [webhook_eq_resolved env st
      (⟨(get_market_price_lists st c.priceLists).2.1, locC⟩ : Cache) req hs
      hsku hne hv,
    webhook_eq_resolved env st c req hs hsku hne hv]
  have h2 := resolved_writes_ok env st
    (⟨(get_market_price_lists st c.priceLists).2.1, locC⟩ : Cache) req v
    hinv2B
  have h1 := resolved_writes_ok env st c req v hinv
  refine (h2.trans ?_).trans h1.symm
  rw [hw]
  dsimp only
  rw [gmpl_idem st st c.priceLists rfl]

/-- C5 witness: the amended statement at the concrete fixture. -/
theorem C5_witness :
    ((airtable_webhook env0
        { st0 with variantPrice := fun _ => 100,
                   priceListFixedPrice := fun _ _ => some 100 }
        ((airtable_webhook env0 st0 c0 reqUAE100).2.1) reqUAE100).2.2).filter
      Call.isWrite =
      ((airtable_webhook env0 st0 c0 reqUAE100).2.2).filter Call.isWrite :=
  C5_second_run_repeats_writes env0 st0 c0 reqUAE100 (fun _ => 100)
    (fun _ _ => some 100) (by decide)

end ShopifyAirtable
